import Mathlib

/-!
Verification development for the offsec_program_mvp repository.

The definitions below are a shallow embedding of the repository's data
model (src/offsec_program_mvp/models.py), its Pydantic report schemas
(src/offsec_program_mvp/schemas/) and its router functions
(src/offsec_program_mvp/routers/).  Database tables are embedded as
lists of row structures, machine dates as a year/month/day record, and
each router function as a Lean function from a database state (plus the
request payload) to an `Except`-wrapped result mirroring the
`HTTPException`s raised by the code.  Timestamp columns
(`created_at`/`updated_at`) are not inspected by any of the verified
routes and are omitted from the row structures; a query ordered by
`created_at` is modelled as returning rows in table order.
-/

namespace OffsecMvp

/-- Calendar date standing in for Python `datetime.date`. -/
structure PyDate where
  year : Nat
  month : Nat
  day : Nat
deriving DecidableEq

/-- Zero padding to two digits, as in `date.isoformat`. -/
def padNat2 (n : Nat) : String :=
  if n < 10 then "0" ++ toString n else toString n

/-- Zero padding to four digits, as in `date.isoformat`. -/
def padNat4 (n : Nat) : String :=
  if n < 10 then "000" ++ toString n
  else if n < 100 then "00" ++ toString n
  else if n < 1000 then "0" ++ toString n
  else toString n

/-- Embedding of Python `date.isoformat()`. -/
def PyDate.isoformat (d : PyDate) : String :=
  padNat4 d.year ++ "-" ++ padNat2 d.month ++ "-" ++ padNat2 d.day

/-- Embedding of the Python idiom `value or default` on an optional
string column: both `None` and the empty string are falsy and fall
through to the default. -/
def pyStrOr (v : Option String) (d : String) : String :=
  match v with
  | some s => if s == "" then d else s
  | none => d

/-- Python truthiness of an optional string: `None` and `""` are falsy. -/
def pyTruthy (v : Option String) : Bool :=
  match v with
  | some s => s != ""
  | none => false

/-- Number of occurrences of `s` in `l`; the count that
`collections.Counter` stores for key `s`. -/
def countOcc (s : String) (l : List String) : Nat :=
  (l.filter (fun x => x == s)).length

/-- First occurrence of each element, in first-encounter order: the key
order of a Python `Counter`/`dict` built from `l`. -/
def distinctFirst : List String → List String
  | [] => []
  | s :: rest => s :: distinctFirst (rest.filter (fun x => x != s))
termination_by l => l.length
decreasing_by
  simp only [List.length_cons]
  exact Nat.lt_succ_of_le (List.length_filter_le _ rest)

/-- Embedding of `collections.Counter(iterable)` viewed as an ordered
association list from key to count (the shape `dict(Counter(...))`
exposes). -/
def severityHistogram (l : List String) : List (String × Nat) :=
  (distinctFirst l).map (fun s => (s, countOcc s l))

/-- Sum of the integer counts of a histogram: `sum(d.values())`. -/
def sumValues (h : List (String × Nat)) : Nat :=
  (h.map Prod.snd).sum

/-- Embedding of `counter.get(key, 0)`. -/
def histGet (h : List (String × Nat)) (s : String) : Nat :=
  match h.find? (fun p => p.1 == s) with
  | some p => p.2
  | none => 0

theorem mem_of_mem_distinctFirst :
    ∀ (l : List String) (t : String), t ∈ distinctFirst l → t ∈ l := by
  intro l
  induction l using distinctFirst.induct with
  | case1 =>
    intro t ht
    simp [distinctFirst] at ht
  | case2 s rest ih =>
    intro t ht
    rw [distinctFirst] at ht
    rcases List.mem_cons.mp ht with h | h
    · exact h ▸ List.mem_cons_self _ _
    · exact List.mem_cons_of_mem _ (List.mem_of_mem_filter (ih t h))

theorem mem_distinctFirst_of_mem :
    ∀ (l : List String) (t : String), t ∈ l → t ∈ distinctFirst l := by
  intro l
  induction l using distinctFirst.induct with
  | case1 =>
    intro t ht
    simp at ht
  | case2 s rest ih =>
    intro t ht
    rw [distinctFirst]
    rcases List.mem_cons.mp ht with h | h
    · exact h ▸ List.mem_cons_self _ _
    · by_cases hts : t = s
      · exact hts ▸ List.mem_cons_self _ _
      · refine List.mem_cons_of_mem _ (ih t ?_)
        refine List.mem_filter.mpr ⟨h, ?_⟩
        simp [hts]

theorem ne_of_mem_distinctFirst_filter (s t : String) (rest : List String)
    (h : t ∈ distinctFirst (rest.filter (fun x => x != s))) : t ≠ s := by
  have hmem := mem_of_mem_distinctFirst _ _ h
  have := List.of_mem_filter hmem
  simpa using this

theorem countOcc_cons_ne (s t : String) (rest : List String) (h : t ≠ s) :
    countOcc t (s :: rest) = countOcc t rest := by
  unfold countOcc
  rw [List.filter_cons]
  have : (s == t) = false := by
    simp [Ne.symm h]
  simp [this]

theorem countOcc_filter_ne (s t : String) (l : List String) (h : t ≠ s) :
    countOcc t (l.filter (fun x => x != s)) = countOcc t l := by
  unfold countOcc
  rw [List.filter_filter]
  congr 1
  apply List.filter_congr
  intro x _
  by_cases hx : x = t
  · subst hx
    simp [h]
  · simp [hx]

theorem countOcc_cons_self (s : String) (rest : List String) :
    countOcc s (s :: rest) = countOcc s rest + 1 := by
  unfold countOcc
  rw [List.filter_cons]
  simp [Nat.add_comm]

theorem countOcc_add_filter_length (s : String) (l : List String) :
    countOcc s l + (l.filter (fun x => x != s)).length = l.length := by
  induction l with
  | nil => simp [countOcc]
  | cons a as ih =>
    by_cases h : a = s
    · subst h
      rw [countOcc_cons_self]
      simp only [List.filter_cons, bne_self_eq_false, Bool.false_eq_true, if_false,
        List.length_cons]
      omega
    · rw [countOcc_cons_ne a s as (Ne.symm h)]
      have hne : (a != s) = true := by simp [h]
      simp only [List.filter_cons, hne, if_true, List.length_cons]
      omega

/-- The histogram's counts add up to the length of the underlying list:
`sum(Counter(xs).values()) == len(xs)`. -/
theorem sumValues_severityHistogram (l : List String) :
    sumValues (severityHistogram l) = l.length := by
  induction l using distinctFirst.induct with
  | case1 => simp [severityHistogram, distinctFirst, sumValues]
  | case2 s rest ih =>
    unfold severityHistogram at *
    rw [distinctFirst]
    unfold sumValues at *
    simp only [List.map_cons, List.map_map, List.sum_cons]
    have hcong :
        ((distinctFirst (rest.filter (fun x => x != s))).map
          ((fun p : String × Nat => p.2) ∘ fun t => (t, countOcc t (s :: rest)))) =
        ((distinctFirst (rest.filter (fun x => x != s))).map
          ((fun p : String × Nat => p.2) ∘ fun t =>
            (t, countOcc t (rest.filter (fun x => x != s))))) := by
      apply List.map_congr_left
      intro t ht
      have hts : t ≠ s := ne_of_mem_distinctFirst_filter s t rest ht
      simp only [Function.comp]
      rw [countOcc_cons_ne s t rest hts, ← countOcc_filter_ne s t rest hts]
    rw [hcong]
    simp only [List.map_map] at ih
    rw [ih]
    rw [countOcc_cons_self]
    have := countOcc_add_filter_length s rest
    simp only [List.length_cons]
    omega

/-- Looking a key up in the histogram yields its occurrence count:
`Counter(xs).get(s, 0) == xs.count(s)`. -/
theorem histGet_severityHistogram (l : List String) (s : String) :
    histGet (severityHistogram l) s = countOcc s l := by
  unfold histGet severityHistogram
  rw [List.find?_map]
  by_cases hmem : s ∈ l
  · have hmem2 : s ∈ distinctFirst l := mem_distinctFirst_of_mem l s hmem
    have hsome : (List.find? ((fun p : String × Nat => p.1 == s) ∘
        fun t => (t, countOcc t l)) (distinctFirst l)).isSome := by
      rw [List.find?_isSome]
      exact ⟨s, hmem2, by simp⟩
    rcases Option.isSome_iff_exists.mp hsome with ⟨t, hfind⟩
    have hts : t = s := by
      have := List.find?_some hfind
      simpa using this
    subst hts
    rw [hfind]
    rfl
  · have hzero : countOcc s l = 0 := by
      unfold countOcc
      rw [List.length_eq_zero, List.filter_eq_nil_iff]
      intro a ha
      simp only [beq_iff_eq]
      intro hc
      exact hmem (hc ▸ ha)
    have hnone : List.find? ((fun p : String × Nat => p.1 == s) ∘
        fun t => (t, countOcc t l)) (distinctFirst l) = none := by
      rw [List.find?_eq_none]
      intro t ht
      simp only [Function.comp, beq_iff_eq]
      intro hc
      exact hmem (hc ▸ mem_of_mem_distinctFirst l t ht)
    rw [hnone, hzero]
    rfl

/-! Row structures embedding the SQLAlchemy models of
src/offsec_program_mvp/models.py.  Primary keys are `Nat`, nullable
columns are `Option`, and `DateTime` audit columns are omitted (no
verified route reads them). -/

/-- Row of the `users` table (models.py, class User). -/
structure UserRow where
  id : Nat
  username : String
  full_name : Option String
  email : Option String
  role : String
  password_hash : String
  api_key : Option String
deriving DecidableEq

/-- Row of the `program_years` table (models.py, class ProgramYear). -/
structure ProgramYearRow where
  id : Nat
  year : Int
  theme : Option String
  objectives : Option String
deriving DecidableEq

/-- Row of the `engagements` table (models.py, class Engagement). -/
structure EngagementRow where
  id : Nat
  name : String
  program_year_id : Option Nat
  engagement_type : String
  business_unit : Option String
  owner_id : Option Nat
  status : String
  start_date : Option PyDate
  end_date : Option PyDate
  scope_summary : Option String
  objectives : Option String
  methodology : Option String
  exec_summary : Option String
  recommendations_overall : Option String
deriving DecidableEq

/-- Row of the `assets` table (models.py, class Asset). -/
structure AssetRow where
  id : Nat
  name : String
  asset_type : String
  identifier : Option String
  environment : Option String
  business_unit : Option String
  criticality : Option String
  notes : Option String
deriving DecidableEq

/-- Row of the `engagement_assets` association table (models.py, class
EngagementAsset). -/
structure EngagementAssetRow where
  id : Nat
  engagement_id : Nat
  asset_id : Nat
  role : Option String
  notes : Option String
deriving DecidableEq

/-- Row of the `finding_templates` table (models.py, class
FindingTemplate). -/
structure FindingTemplateRow where
  id : Nat
  title : String
  category : Option String
  severity_default : Option String
  description : Option String
  impact : Option String
  recommendation : Option String
  cwe_id : Option String
  attack_techniques : Option String
  references : Option String
  created_by_id : Option Nat
deriving DecidableEq

/-- Row of the `findings` table (models.py, class Finding). -/
structure FindingRow where
  id : Nat
  engagement_id : Nat
  template_id : Option Nat
  title : String
  severity : String
  status : String
  description : Option String
  impact : Option String
  poc : Option String
  recommendation : Option String
  attack_techniques : Option String
  remediation_status : String
  remediation_owner : Option String
  due_date : Option PyDate
  detection_status : Option String
  detection_notes : Option String
  risk_accepted : Bool
  risk_accepted_notes : Option String
  created_by_id : Option Nat
deriving DecidableEq

/-- Row of the `finding_assets` association table (models.py, class
FindingAsset). -/
structure FindingAssetRow where
  id : Nat
  finding_id : Nat
  asset_id : Nat
deriving DecidableEq

/-- Row of the `timeline_events` table (models.py, class TimelineEvent). -/
structure TimelineEventRow where
  id : Nat
  engagement_id : Nat
  user_id : Option Nat
  event_type : String
  summary : String
  details : Option String
deriving DecidableEq

/-- Row of the `comments` table (models.py, class Comment). -/
structure CommentRow where
  id : Nat
  engagement_id : Option Nat
  finding_id : Option Nat
  user_id : Nat
  text : String
deriving DecidableEq

/-- Database state: the tables declared in models.py, each as a list of
rows in insertion order. -/
structure DB where
  users : List UserRow
  program_years : List ProgramYearRow
  intake_requests : List Nat
  engagements : List EngagementRow
  assets : List AssetRow
  engagement_assets : List EngagementAssetRow
  finding_templates : List FindingTemplateRow
  findings : List FindingRow
  finding_assets : List FindingAssetRow
  timeline_events : List TimelineEventRow
  comments : List CommentRow
deriving DecidableEq

/-- Domain error mirroring `fastapi.HTTPException(status_code, detail)`. -/
inductive ApiError where
  | http (statusCode : Nat) (detail : String)
deriving DecidableEq

/-! Loaded aggregate: the shape produced by the `joinedload` options of
the report/export queries in src/offsec_program_mvp/routers/engagements.py
(engagement → program_year, → assets → asset, → findings → assets → asset). -/

/-- A finding loaded together with its affected assets
(`Finding.assets` resolved through `FindingAsset.asset`). -/
structure LoadedFinding extends FindingRow where
  assets : List AssetRow
deriving DecidableEq

/-- An engagement loaded with its resolved program year, in-scope assets
(`EngagementAsset.asset`) and findings. -/
structure LoadedEngagement where
  id : Nat
  name : String
  engagement_type : String
  status : String
  business_unit : Option String
  program_year : Option Int
  owner_id : Option Nat
  start_date : Option PyDate
  end_date : Option PyDate
  scope_summary : Option String
  objectives : Option String
  methodology : Option String
  exec_summary : Option String
  recommendations_overall : Option String
  assets : List AssetRow
  findings : List LoadedFinding
deriving DecidableEq

/-- Resolve a finding row's affected assets, as the joinedload of
`Finding.assets` → `FindingAsset.asset` does. -/
def loadFinding (db : DB) (f : FindingRow) : LoadedFinding :=
  { f with
    assets :=
      (db.finding_assets.filter (fun fa => fa.finding_id == f.id)).filterMap
        (fun fa => db.assets.find? (fun a => a.id == fa.asset_id)) }

/-- Load the full engagement aggregate by identifier, mirroring the
joinedload query shared by the report and export endpoints; `none` when
the identifier does not resolve. -/
def loadEngagement (db : DB) (eid : Nat) : Option LoadedEngagement :=
  (db.engagements.find? (fun e => e.id == eid)).map (fun e =>
    { id := e.id
      name := e.name
      engagement_type := e.engagement_type
      status := e.status
      business_unit := e.business_unit
      program_year :=
        e.program_year_id.bind (fun pid =>
          (db.program_years.find? (fun p => p.id == pid)).map (fun p => p.year))
      owner_id := e.owner_id
      start_date := e.start_date
      end_date := e.end_date
      scope_summary := e.scope_summary
      objectives := e.objectives
      methodology := e.methodology
      exec_summary := e.exec_summary
      recommendations_overall := e.recommendations_overall
      assets :=
        (db.engagement_assets.filter (fun ea => ea.engagement_id == e.id)).filterMap
          (fun ea => db.assets.find? (fun a => a.id == ea.asset_id))
      findings :=
        (db.findings.filter (fun f => f.engagement_id == e.id)).map (loadFinding db) })

/-! Report document structures embedding the Pydantic schemas of
src/offsec_program_mvp/schemas/engagement.py and schemas/finding.py. -/

/-- `AssetSummary` (schemas/asset.py). -/
structure AssetSummary where
  id : Nat
  name : String
  asset_type : String
  identifier : Option String
  environment : Option String
  criticality : Option String
deriving DecidableEq

/-- Projection `AssetSummary.from_orm(asset)`. -/
def AssetRow.toSummary (a : AssetRow) : AssetSummary :=
  { id := a.id, name := a.name, asset_type := a.asset_type,
    identifier := a.identifier, environment := a.environment,
    criticality := a.criticality }

/-- `EngagementReportMetadata` (schemas/engagement.py). -/
structure EngagementReportMetadata where
  id : Nat
  name : String
  engagement_type : String
  program_year : Option Int
  business_unit : Option String
  status : String
  start_date : Option PyDate
  end_date : Option PyDate
  owner_id : Option Nat
deriving DecidableEq

/-- `EngagementReportScope` (schemas/engagement.py). -/
structure EngagementReportScope where
  scope_summary : Option String
  objectives : Option String
  assets : List AssetSummary
deriving DecidableEq

/-- `FindingReportItem` (schemas/finding.py). -/
structure FindingReportItem where
  id : Nat
  title : String
  severity : String
  status : String
  description : Option String
  impact : Option String
  poc : Option String
  recommendation : Option String
  attack_techniques : Option String
  remediation_status : String
  remediation_owner : Option String
  due_date : Option PyDate
  detection_status : Option String
  detection_notes : Option String
  risk_accepted : Bool
  risk_accepted_notes : Option String
  assets : List AssetSummary
deriving DecidableEq

/-- `EngagementReport` (schemas/engagement.py); the severity histogram
`Dict[str, int]` is carried as an ordered association list. -/
structure EngagementReport where
  metadata : EngagementReportMetadata
  executive_summary : Option String
  scope : EngagementReportScope
  methodology : Option String
  findings_summary : List (String × Nat)
  findings : List FindingReportItem
  recommendations_overall : Option String
deriving DecidableEq

/-- Detail record built for one finding inside the report loop of
`get_engagement_report` (routers/engagements.py, lines 241-265). -/
def buildFindingReportItem (f : LoadedFinding) : FindingReportItem :=
  { id := f.id, title := f.title, severity := f.severity, status := f.status,
    description := f.description, impact := f.impact, poc := f.poc,
    recommendation := f.recommendation, attack_techniques := f.attack_techniques,
    remediation_status := f.remediation_status,
    remediation_owner := f.remediation_owner, due_date := f.due_date,
    detection_status := f.detection_status, detection_notes := f.detection_notes,
    risk_accepted := f.risk_accepted,
    risk_accepted_notes := f.risk_accepted_notes,
    assets := f.assets.map AssetRow.toSummary }

/-- Assembly of the report document from the loaded aggregate
(`get_engagement_report`, routers/engagements.py lines 211-276): the
severity histogram is `dict(Counter(f.severity for f in
engagement.findings))` and the detail list maps over the same
`engagement.findings` collection. -/
def buildReport (e : LoadedEngagement) : EngagementReport :=
  { metadata :=
      { id := e.id, name := e.name, engagement_type := e.engagement_type,
        program_year := e.program_year, business_unit := e.business_unit,
        status := e.status, start_date := e.start_date, end_date := e.end_date,
        owner_id := e.owner_id }
    executive_summary := e.exec_summary
    scope :=
      { scope_summary := e.scope_summary, objectives := e.objectives,
        assets := e.assets.map AssetRow.toSummary }
    methodology := e.methodology
    findings_summary := severityHistogram (e.findings.map (fun f => f.severity))
    findings := e.findings.map buildFindingReportItem
    recommendations_overall := e.recommendations_overall }

/-! CSV renderer, embedding `export_engagement_csv`
(routers/engagements.py, lines 279-345) at the level of rows of string
cells (the argument lists handed to `csv.writer.writerow`). -/

/-- The fixed header row written first by `export_engagement_csv`. -/
def csvHeader : List String :=
  ["Finding ID", "Title", "Severity", "Status", "Description",
   "Impact", "Recommendation", "Remediation Status", "Remediation Owner",
   "Due Date", "Detection Status", "Risk Accepted", "Affected Assets",
   "ATT&CK Techniques"]

/-- The "Affected Assets" cell: a comma-joined list of
`name (identifier or 'N/A')` pairs, or the literal `N/A` when the
finding has no linked assets. -/
def csvAssetsStr (f : LoadedFinding) : String :=
  if f.assets.isEmpty then "N/A"
  else
    String.intercalate ", "
      (f.assets.map (fun a => a.name ++ " (" ++ pyStrOr a.identifier "N/A" ++ ")"))

/-- One CSV data row per finding (`writer.writerow([...])`,
routers/engagements.py lines 319-334). -/
def csvRow (f : LoadedFinding) : List String :=
  [toString f.id,
   f.title,
   f.severity,
   f.status,
   pyStrOr f.description "",
   pyStrOr f.impact "",
   pyStrOr f.recommendation "",
   f.remediation_status,
   pyStrOr f.remediation_owner "",
   (match f.due_date with | some d => d.isoformat | none => ""),
   pyStrOr f.detection_status "",
   (if f.risk_accepted then "Yes" else "No"),
   csvAssetsStr f,
   pyStrOr f.attack_techniques ""]

/-- All rows of the CSV export: the header followed by one row per
finding in load order. -/
def exportCsvRows (e : LoadedEngagement) : List (List String) :=
  csvHeader :: e.findings.map csvRow

/-! Markdown renderer, embedding `export_engagement_markdown`
(routers/engagements.py, lines 348-501) as the `md_lines` list the
endpoint joins with newlines. -/

/-- Canonical severity display order used by the findings-summary table
(routers/engagements.py, line 428). -/
def canonicalSeverities : List String :=
  ["Critical", "High", "Medium", "Low", "Info"]

/-- One data row of the findings-summary table. -/
def mdSummaryRow (s : String) (count : Nat) : String :=
  "| " ++ s ++ " | " ++ toString count ++ " |"

/-- The findings-summary section of the Markdown export
(routers/engagements.py, lines 422-434): heading, then either a table
whose rows iterate the canonical severity order keeping only nonzero
counts, or the literal "No findings recorded." line when the severity
counter is empty. -/
def mdFindingsSummarySection (findings : List LoadedFinding) : List String :=
  let severity_counts := severityHistogram (findings.map (fun f => f.severity))
  ["## Findings Summary", ""] ++
  (if severity_counts.isEmpty then ["No findings recorded."]
   else
     ["| Severity | Count |", "|----------|-------|"] ++
     canonicalSeverities.filterMap (fun s =>
       let count := histGet severity_counts s
       if 0 < count then some (mdSummaryRow s count) else none)) ++
  [""]

/-- In-scope asset bullet line (routers/engagements.py, line 407). -/
def mdAssetLine (a : AssetRow) : String :=
  "- **" ++ a.name ++ "** (" ++ a.asset_type ++ "): " ++ pyStrOr a.identifier "N/A"

/-- Affected-asset bullet line inside a finding subsection
(routers/engagements.py, line 456). -/
def mdFindingAssetLine (a : AssetRow) : String :=
  "- " ++ a.name ++ " (" ++ pyStrOr a.identifier "N/A" ++ ")"

/-- One numbered finding subsection of the Detailed Findings part
(routers/engagements.py, lines 440-485). -/
def mdFindingBlock (idx : Nat) (f : LoadedFinding) : List String :=
  ["### " ++ toString idx ++ ". " ++ f.title, "",
   "- **Severity**: " ++ f.severity,
   "- **Status**: " ++ f.status,
   "- **Remediation Status**: " ++ f.remediation_status] ++
  (if pyTruthy f.remediation_owner then
     ["- **Remediation Owner**: " ++ (f.remediation_owner.getD "")] else []) ++
  (match f.due_date with
   | some d => ["- **Due Date**: " ++ d.isoformat]
   | none => []) ++
  [""] ++
  (if f.assets.isEmpty then []
   else ["**Affected Assets:**"] ++ f.assets.map mdFindingAssetLine ++ [""]) ++
  (if pyTruthy f.description then
     ["**Description:**", "", f.description.getD "", ""] else []) ++
  (if pyTruthy f.impact then
     ["**Impact:**", "", f.impact.getD "", ""] else []) ++
  (if pyTruthy f.poc then
     ["**Proof of Concept:**", "", f.poc.getD "", ""] else []) ++
  (if pyTruthy f.recommendation then
     ["**Recommendation:**", "", f.recommendation.getD "", ""] else []) ++
  (if pyTruthy f.attack_techniques then
     ["**ATT&CK Techniques:** " ++ (f.attack_techniques.getD ""), ""] else [])

/-- The complete `md_lines` list assembled by `export_engagement_markdown`
(routers/engagements.py, lines 374-491). -/
def exportMarkdownLines (e : LoadedEngagement) : List String :=
  ["# " ++ e.name, "", "## Engagement Metadata", "",
   "- **Type**: " ++ e.engagement_type,
   "- **Status**: " ++ e.status,
   "- **Business Unit**: " ++ pyStrOr e.business_unit "N/A",
   "- **Program Year**: " ++
     (match e.program_year with | some y => toString y | none => "N/A")] ++
  (match e.start_date with
   | some d => ["- **Start Date**: " ++ d.isoformat]
   | none => []) ++
  (match e.end_date with
   | some d => ["- **End Date**: " ++ d.isoformat]
   | none => []) ++
  [""] ++
  (if pyTruthy e.exec_summary then
     ["## Executive Summary", "", e.exec_summary.getD "", ""] else []) ++
  (if pyTruthy e.scope_summary then
     ["## Scope", "", e.scope_summary.getD "", ""] else []) ++
  (if e.assets.isEmpty then []
   else ["### In-Scope Assets", ""] ++ e.assets.map mdAssetLine ++ [""]) ++
  (if pyTruthy e.objectives then
     ["## Objectives", "", e.objectives.getD "", ""] else []) ++
  (if pyTruthy e.methodology then
     ["## Methodology", "", e.methodology.getD "", ""] else []) ++
  mdFindingsSummarySection e.findings ++
  (if e.findings.isEmpty then []
   else
     ["## Detailed Findings", ""] ++
     ((e.findings.enumFrom 1).map (fun p => mdFindingBlock p.1 p.2)).flatten) ++
  (if pyTruthy e.recommendations_overall then
     ["## Overall Recommendations", "", e.recommendations_overall.getD "", ""]
   else [])

/-! Router functions.  Each endpoint is embedded as a function of the
database state and the request payload, returning `Except ApiError`
mirroring the raised `HTTPException`s; writes return the updated state. -/

/-- Smallest unused primary key; stand-in for the autoincrement column. -/
def freshId (ids : List Nat) : Nat :=
  ids.foldr Nat.max 0 + 1

/-- Embedding of `get_current_user` (routers/users.py, lines 22-44):
look the `X-API-Key` header value up among users (401 on a miss), or
fall back to the first user when no header is presented (500 when the
users table is empty). -/
def getCurrentUser (db : DB) (x_api_key : Option String) : Except ApiError UserRow :=
  match x_api_key with
  | some key =>
    match db.users.find? (fun u => u.api_key == some key) with
    | some u => Except.ok u
    | none => Except.error (ApiError.http 401 "Invalid API key")
  | none =>
    match db.users.head? with
    | some u => Except.ok u
    | none => Except.error (ApiError.http 500 "No users in database")

/-- Response body of `regenerate_api_key`. -/
structure RegenerateOut where
  user_id : Nat
  username : String
  api_key : String
deriving DecidableEq

/-- Embedding of `regenerate_api_key` (routers/users.py, lines 69-99):
admin-only; the found user's `api_key` column is overwritten with the
freshly generated token (the token is a parameter here, standing for
`secrets.token_urlsafe(32)`). -/
def regenerateApiKey (db : DB) (currentUser : UserRow) (user_id : Nat)
    (newKey : String) : Except ApiError (DB × RegenerateOut) :=
  if currentUser.role ≠ "admin" then
    Except.error (ApiError.http 403 "Only administrators can regenerate API keys")
  else
    match db.users.find? (fun u => u.id == user_id) with
    | none => Except.error (ApiError.http 404 "User not found")
    | some u =>
      Except.ok
        ({ db with
            users := db.users.map (fun v =>
              if v.id == user_id then { v with api_key := some newKey } else v) },
         { user_id := u.id, username := u.username, api_key := newKey })

/-- Request payload `EngagementCreate` (schemas/engagement.py). -/
structure EngagementCreateIn where
  name : String
  engagement_type : String
  business_unit : Option String
  start_date : Option PyDate
  end_date : Option PyDate
  scope_summary : Option String
  objectives : Option String
  methodology : Option String
  program_year : Int
deriving DecidableEq

/-- Embedding of `create_engagement` (routers/engagements.py, lines
29-66): get-or-create the `ProgramYear` row for the requested year,
then insert the engagement with status "Planned" owned by the caller. -/
def createEngagement (db : DB) (input : EngagementCreateIn)
    (currentUser : UserRow) : DB × EngagementRow :=
  let step : DB × ProgramYearRow :=
    match db.program_years.find? (fun p => p.year == input.program_year) with
    | some p => (db, p)
    | none =>
      let p : ProgramYearRow :=
        { id := freshId (db.program_years.map (fun q => q.id)),
          year := input.program_year, theme := none, objectives := none }
      ({ db with program_years := db.program_years ++ [p] }, p)
  let db1 := step.1
  let py := step.2
  let e : EngagementRow :=
    { id := freshId (db1.engagements.map (fun q => q.id)),
      name := input.name,
      program_year_id := some py.id,
      engagement_type := input.engagement_type,
      business_unit := input.business_unit,
      owner_id := some currentUser.id,
      status := "Planned",
      start_date := input.start_date,
      end_date := input.end_date,
      scope_summary := input.scope_summary,
      objectives := input.objectives,
      methodology := input.methodology,
      exec_summary := none,
      recommendations_overall := none }
  ({ db1 with engagements := db1.engagements ++ [e] }, e)

/-- Request payload `FindingCreate` (schemas/finding.py). -/
structure FindingCreateIn where
  title : String
  severity : String
  description : Option String
  impact : Option String
  poc : Option String
  recommendation : Option String
  attack_techniques : Option String
  template_id : Option Nat
  remediation_status : Option String
  remediation_owner : Option String
  due_date : Option PyDate
deriving DecidableEq

/-- Embedding of `create_finding` (routers/findings.py, lines 23-55):
404 when the engagement does not resolve; otherwise insert a finding
built solely from the request payload (the `template_id` reference is
stored, `remediation_status` falls back to "Not-Started" via Python
`or`, and the `status` column takes its model default "New"). -/
def createFinding (db : DB) (eid : Nat) (input : FindingCreateIn)
    (currentUser : UserRow) : Except ApiError (DB × FindingRow) :=
  match db.engagements.find? (fun e => e.id == eid) with
  | none => Except.error (ApiError.http 404 "Engagement not found")
  | some _ =>
    let f : FindingRow :=
      { id := freshId (db.findings.map (fun q => q.id)),
        engagement_id := eid,
        template_id := input.template_id,
        title := input.title,
        severity := input.severity,
        status := "New",
        description := input.description,
        impact := input.impact,
        poc := input.poc,
        recommendation := input.recommendation,
        attack_techniques := input.attack_techniques,
        remediation_status := pyStrOr input.remediation_status "Not-Started",
        remediation_owner := input.remediation_owner,
        due_date := input.due_date,
        detection_status := none,
        detection_notes := none,
        risk_accepted := false,
        risk_accepted_notes := none,
        created_by_id := some currentUser.id }
    Except.ok ({ db with findings := db.findings ++ [f] }, f)

/-- Descending insertion by the string `severity` column, modelling
`order_by(models.Finding.severity.desc())`. -/
def insertBySeverityDesc (f : FindingRow) : List FindingRow → List FindingRow
  | [] => [f]
  | g :: rest =>
    if g.severity ≤ f.severity then f :: g :: rest
    else g :: insertBySeverityDesc f rest

/-- Embedding of `list_findings_for_engagement` (routers/findings.py,
lines 58-73): 404 when the engagement does not resolve, otherwise the
engagement's findings sorted by severity descending. -/
def listFindingsForEngagement (db : DB) (eid : Nat) :
    Except ApiError (List FindingRow) :=
  match db.engagements.find? (fun e => e.id == eid) with
  | none => Except.error (ApiError.http 404 "Engagement not found")
  | some _ =>
    Except.ok
      ((db.findings.filter (fun f => f.engagement_id == eid)).foldr
        insertBySeverityDesc [])

/-- Request payload `TimelineEventCreate` (schemas/timeline.py). -/
structure TimelineEventCreateIn where
  event_type : String
  summary : String
  details : Option String
deriving DecidableEq

/-- Embedding of `add_timeline_event` (routers/timeline_comments.py,
lines 23-49): 404 when the engagement does not resolve, otherwise
append the event. -/
def addTimelineEvent (db : DB) (eid : Nat) (input : TimelineEventCreateIn)
    (currentUser : UserRow) : Except ApiError (DB × TimelineEventRow) :=
  match db.engagements.find? (fun e => e.id == eid) with
  | none => Except.error (ApiError.http 404 "Engagement not found")
  | some _ =>
    let t : TimelineEventRow :=
      { id := freshId (db.timeline_events.map (fun q => q.id)),
        engagement_id := eid,
        user_id := some currentUser.id,
        event_type := input.event_type,
        summary := input.summary,
        details := input.details }
    Except.ok ({ db with timeline_events := db.timeline_events ++ [t] }, t)

/-- Embedding of `list_timeline_events` (routers/timeline_comments.py,
lines 52-67): the query filters events by the engagement identifier and
orders by creation time; note that, unlike the sibling endpoints, no
existence check on the engagement is performed. -/
def listTimelineEvents (db : DB) (eid : Nat) :
    Except ApiError (List TimelineEventRow) :=
  Except.ok (db.timeline_events.filter (fun t => t.engagement_id == eid))

/-- Request payload `CommentCreate` (schemas/comment.py). -/
structure CommentCreateIn where
  text : String
deriving DecidableEq

/-- Embedding of `add_engagement_comment` (routers/timeline_comments.py,
lines 70-94): 404 when the engagement does not resolve, otherwise
append a comment bound to the engagement (and to no finding). -/
def addEngagementComment (db : DB) (eid : Nat) (input : CommentCreateIn)
    (currentUser : UserRow) : Except ApiError (DB × CommentRow) :=
  match db.engagements.find? (fun e => e.id == eid) with
  | none => Except.error (ApiError.http 404 "Engagement not found")
  | some _ =>
    let c : CommentRow :=
      { id := freshId (db.comments.map (fun q => q.id)),
        engagement_id := some eid,
        finding_id := none,
        user_id := currentUser.id,
        text := input.text }
    Except.ok ({ db with comments := db.comments ++ [c] }, c)

/-- Embedding of `get_finding_template` (routers/finding_templates.py,
lines 68-82). -/
def getFindingTemplate (db : DB) (tid : Nat) :
    Except ApiError FindingTemplateRow :=
  match db.finding_templates.find? (fun t => t.id == tid) with
  | none => Except.error (ApiError.http 404 "Finding template not found")
  | some t => Except.ok t

/-- Embedding of `delete_finding_template` (routers/finding_templates.py,
lines 109-126): only the template row itself is removed; nothing else
in the database is touched. -/
def deleteFindingTemplate (db : DB) (tid : Nat) : Except ApiError DB :=
  match db.finding_templates.find? (fun t => t.id == tid) with
  | none => Except.error (ApiError.http 404 "Finding template not found")
  | some _ =>
    Except.ok { db with
      finding_templates := db.finding_templates.filter (fun t => t.id != tid) }

/-- Embedding of `get_engagement_report` (routers/engagements.py, lines
183-276): load the aggregate or 404, then assemble the document. -/
def getEngagementReport (db : DB) (eid : Nat) :
    Except ApiError EngagementReport :=
  match loadEngagement db eid with
  | none => Except.error (ApiError.http 404 "Engagement not found")
  | some e => Except.ok (buildReport e)

/-- Embedding of `export_engagement_csv` (routers/engagements.py, lines
279-345): load the aggregate or 404, then render the CSV rows. -/
def exportEngagementCsv (db : DB) (eid : Nat) :
    Except ApiError (List (List String)) :=
  match loadEngagement db eid with
  | none => Except.error (ApiError.http 404 "Engagement not found")
  | some e => Except.ok (exportCsvRows e)

/-- Embedding of `export_engagement_markdown` (routers/engagements.py,
lines 348-501): load the aggregate or 404, then render the Markdown
line list. -/
def exportEngagementMarkdown (db : DB) (eid : Nat) :
    Except ApiError (List String) :=
  match loadEngagement db eid with
  | none => Except.error (ApiError.http 404 "Engagement not found")
  | some e => Except.ok (exportMarkdownLines e)

/-- ORM cascade delete of an engagement, embedding the
`cascade="all, delete-orphan"` declarations on
`Engagement.assets/findings/timeline_events/comments` (models.py, lines
136-151) and, transitively for each deleted finding, on
`Finding.assets/comments` (models.py, lines 284-289).  The whole
cascade is a single state transition, matching the one-transaction
contract of a session delete+commit. -/
def deleteEngagement (db : DB) (eid : Nat) : DB :=
  let deletedFindingIds :=
    (db.findings.filter (fun f => f.engagement_id == eid)).map (fun f => f.id)
  { db with
    engagements := db.engagements.filter (fun e => e.id != eid),
    engagement_assets :=
      db.engagement_assets.filter (fun ea => ea.engagement_id != eid),
    findings := db.findings.filter (fun f => f.engagement_id != eid),
    finding_assets :=
      db.finding_assets.filter (fun fa => !(deletedFindingIds.contains fa.finding_id)),
    timeline_events :=
      db.timeline_events.filter (fun t => t.engagement_id != eid),
    comments :=
      db.comments.filter (fun c =>
        c.engagement_id != some eid &&
        (match c.finding_id with
         | some fid => !(deletedFindingIds.contains fid)
         | none => true)) }

/-! Concrete fixtures used by witnesses and counterexamples. -/

/-- Database state with every table empty. -/
def emptyDB : DB :=
  { users := [], program_years := [], intake_requests := [], engagements := [],
    assets := [], engagement_assets := [], finding_templates := [], findings := [],
    finding_assets := [], timeline_events := [], comments := [] }

/-- Minimal user row. -/
def exUser (n : Nat) (role : String) (key : Option String) : UserRow :=
  { id := n, username := "user" ++ toString n, full_name := none, email := none,
    role := role, password_hash := "x", api_key := key }

/-- Minimal engagement row. -/
def exEngagementRow (n : Nat) : EngagementRow :=
  { id := n, name := "Test Engagement", program_year_id := none,
    engagement_type := "Infra", business_unit := none, owner_id := none,
    status := "Planned", start_date := none, end_date := none,
    scope_summary := none, objectives := none, methodology := none,
    exec_summary := none, recommendations_overall := none }

/-- Minimal asset row. -/
def exAssetRow (n : Nat) : AssetRow :=
  { id := n, name := "host" ++ toString n, asset_type := "Host",
    identifier := none, environment := none, business_unit := none,
    criticality := none, notes := none }

/-- Minimal finding row under a given engagement. -/
def exFindingRowIn (n eid : Nat) : FindingRow :=
  { id := n, engagement_id := eid, template_id := none, title := "F",
    severity := "High", status := "New", description := none, impact := none,
    poc := none, recommendation := none, attack_techniques := none,
    remediation_status := "Not-Started", remediation_owner := none,
    due_date := none, detection_status := none, detection_notes := none,
    risk_accepted := false, risk_accepted_notes := none, created_by_id := none }

/-- Loaded engagement with zero findings and zero assets. -/
def exEmptyEngagement : LoadedEngagement :=
  { id := 1, name := "Empty", engagement_type := "Infra", status := "Planned",
    business_unit := none, program_year := some 2025, owner_id := some 1,
    start_date := none, end_date := none, scope_summary := none,
    objectives := none, methodology := none, exec_summary := none,
    recommendations_overall := none, assets := [], findings := [] }

/-- Loaded finding with no linked assets and every optional text field
absent. -/
def exBareFinding : LoadedFinding :=
  { toFindingRow := exFindingRowIn 7 1, assets := [] }

/-! Claim theorems. -/

/-- C1: for every loaded engagement aggregate, the report's detailed
findings list has exactly as many entries as the sum of the integer
counts of its severity histogram, both being derived from the same
loaded finding collection. -/
theorem report_findings_length_eq_summary_total (e : LoadedEngagement) :
    (buildReport e).findings.length = sumValues (buildReport e).findings_summary := by
  simp [buildReport, sumValues_severityHistogram]

/-- C2: cascade-deleting an engagement removes, in the single state
transition, every EngagementAsset, Finding, TimelineEvent and Comment
row referencing its identifier, and every FindingAsset row and
finding-bound Comment row referencing one of its former findings. -/
theorem delete_engagement_leaves_no_orphan_rows (db : DB) (eid : Nat) :
    (∀ e ∈ (deleteEngagement db eid).engagements, e.id ≠ eid) ∧
    (∀ ea ∈ (deleteEngagement db eid).engagement_assets, ea.engagement_id ≠ eid) ∧
    (∀ f ∈ (deleteEngagement db eid).findings, f.engagement_id ≠ eid) ∧
    (∀ t ∈ (deleteEngagement db eid).timeline_events, t.engagement_id ≠ eid) ∧
    (∀ c ∈ (deleteEngagement db eid).comments, c.engagement_id ≠ some eid) ∧
    (∀ fa ∈ (deleteEngagement db eid).finding_assets,
      ∀ f ∈ db.findings, f.engagement_id = eid → fa.finding_id ≠ f.id) ∧
    (∀ c ∈ (deleteEngagement db eid).comments,
      ∀ f ∈ db.findings, f.engagement_id = eid → c.finding_id ≠ some f.id) := by
  refine ⟨?_, ?_, ?_, ?_, ?_, ?_, ?_⟩
  · intro e he
    simp only [deleteEngagement, List.mem_filter, bne_iff_ne, ne_eq] at he
    exact he.2
  · intro ea hea
    simp only [deleteEngagement, List.mem_filter, bne_iff_ne, ne_eq] at hea
    exact hea.2
  · intro f hf
    simp only [deleteEngagement, List.mem_filter, bne_iff_ne, ne_eq] at hf
    exact hf.2
  · intro t ht
    simp only [deleteEngagement, List.mem_filter, bne_iff_ne, ne_eq] at ht
    exact ht.2
  · intro c hc
    simp only [deleteEngagement, List.mem_filter, Bool.and_eq_true, bne_iff_ne,
      ne_eq] at hc
    exact hc.2.1
  · intro fa hfa f hf hfe hcontra
    simp only [deleteEngagement, List.mem_filter, Bool.not_eq_true'] at hfa
    have h3 : ((db.findings.filter (fun g => g.engagement_id == eid)).map
        (fun g => g.id)).contains fa.finding_id = true :=
      List.contains_iff_exists_mem_beq.mpr
        ⟨f.id, List.mem_map.mpr ⟨f, List.mem_filter.mpr ⟨hf, by simp [hfe]⟩, rfl⟩,
         by simp [hcontra]⟩
    rw [hfa.2] at h3
    exact Bool.false_ne_true h3
  · intro c hc f hf hfe hcontra
    simp only [deleteEngagement, List.mem_filter, Bool.and_eq_true] at hc
    have hmatch := hc.2.2
    rw [hcontra] at hmatch
    simp only [Bool.not_eq_true'] at hmatch
    have h3 : ((db.findings.filter (fun g => g.engagement_id == eid)).map
        (fun g => g.id)).contains f.id = true :=
      List.contains_iff_exists_mem_beq.mpr
        ⟨f.id, List.mem_map.mpr ⟨f, List.mem_filter.mpr ⟨hf, by simp [hfe]⟩, rfl⟩,
         by simp⟩
    rw [hmatch] at h3
    exact Bool.false_ne_true h3

/-- C2 witness on a populated one-engagement database. -/
def exDB2 : DB :=
  { emptyDB with
    users := [exUser 1 "admin" (some "k1")],
    engagements := [exEngagementRow 1],
    assets := [exAssetRow 1],
    engagement_assets :=
      [{ id := 1, engagement_id := 1, asset_id := 1, role := some "Primary",
         notes := none }],
    findings := [exFindingRowIn 1 1],
    finding_assets := [{ id := 1, finding_id := 1, asset_id := 1 }],
    timeline_events :=
      [{ id := 1, engagement_id := 1, user_id := none, event_type := "note",
         summary := "kickoff", details := none }],
    comments :=
      [{ id := 1, engagement_id := some 1, finding_id := none, user_id := 1,
         text := "hello" }] }

/-- C2 applied to a concrete populated database. -/
theorem delete_engagement_leaves_no_orphan_rows_witness :
    (∀ e ∈ (deleteEngagement exDB2 1).engagements, e.id ≠ 1) ∧
    (∀ ea ∈ (deleteEngagement exDB2 1).engagement_assets, ea.engagement_id ≠ 1) ∧
    (∀ f ∈ (deleteEngagement exDB2 1).findings, f.engagement_id ≠ 1) ∧
    (∀ t ∈ (deleteEngagement exDB2 1).timeline_events, t.engagement_id ≠ 1) ∧
    (∀ c ∈ (deleteEngagement exDB2 1).comments, c.engagement_id ≠ some 1) ∧
    (∀ fa ∈ (deleteEngagement exDB2 1).finding_assets,
      ∀ f ∈ exDB2.findings, f.engagement_id = 1 → fa.finding_id ≠ f.id) ∧
    (∀ c ∈ (deleteEngagement exDB2 1).comments,
      ∀ f ∈ exDB2.findings, f.engagement_id = 1 → c.finding_id ≠ some f.id) :=
  delete_engagement_leaves_no_orphan_rows exDB2 1

/-- C8: an engagement with zero findings exports as a CSV consisting of
exactly the one fixed 14-column header row, and its Markdown
findings-summary section carries the literal "No findings recorded."
line instead of a table. -/
theorem empty_findings_exports (e : LoadedEngagement) (h : e.findings = []) :
    exportCsvRows e = [csvHeader] ∧
    csvHeader.length = 14 ∧
    mdFindingsSummarySection e.findings =
      ["## Findings Summary", "", "No findings recorded.", ""] ∧
    "No findings recorded." ∈ exportMarkdownLines e := by
  refine ⟨?_, rfl, ?_, ?_⟩
  · simp [exportCsvRows, h]
  · rw [h]
    simp [mdFindingsSummarySection, severityHistogram, distinctFirst]
  · have hmem : "No findings recorded." ∈ mdFindingsSummarySection e.findings := by
      rw [h]
      simp [mdFindingsSummarySection, severityHistogram, distinctFirst]
    unfold exportMarkdownLines
    simp only [List.mem_append]
    tauto

/-- C8 applied to a concrete engagement with zero findings. -/
theorem empty_findings_exports_witness :
    exportCsvRows exEmptyEngagement = [csvHeader] ∧
    csvHeader.length = 14 ∧
    mdFindingsSummarySection exEmptyEngagement.findings =
      ["## Findings Summary", "", "No findings recorded.", ""] ∧
    "No findings recorded." ∈ exportMarkdownLines exEmptyEngagement :=
  empty_findings_exports exEmptyEngagement rfl

/-- C9: in a CSV data row, a finding with zero linked assets renders the
literal "N/A" in the Affected Assets column (index 12), and each absent
optional text field renders as the empty string (never the word
"null"): Description (4), Impact (5), Recommendation (6), Remediation
Owner (8), Due Date (9), Detection Status (10), ATT&CK Techniques (13). -/
theorem csv_row_absent_field_defaults (f : LoadedFinding)
    (hassets : f.assets = []) (hdesc : f.description = none)
    (himp : f.impact = none) (hrec : f.recommendation = none)
    (hown : f.remediation_owner = none) (hdue : f.due_date = none)
    (hdet : f.detection_status = none) (hatk : f.attack_techniques = none) :
    (csvRow f)[12]? = some "N/A" ∧
    (csvRow f)[4]? = some "" ∧ (csvRow f)[5]? = some "" ∧
    (csvRow f)[6]? = some "" ∧ (csvRow f)[8]? = some "" ∧
    (csvRow f)[9]? = some "" ∧ (csvRow f)[10]? = some "" ∧
    (csvRow f)[13]? = some "" := by
  simp [csvRow, csvAssetsStr, hassets, hdesc, himp, hrec, hown, hdue, hdet,
    hatk, pyStrOr]

/-- C9 applied to a concrete finding with no assets and all optional
text fields absent. -/
theorem csv_row_absent_field_defaults_witness :
    (csvRow exBareFinding)[12]? = some "N/A" ∧
    (csvRow exBareFinding)[4]? = some "" ∧ (csvRow exBareFinding)[5]? = some "" ∧
    (csvRow exBareFinding)[6]? = some "" ∧ (csvRow exBareFinding)[8]? = some "" ∧
    (csvRow exBareFinding)[9]? = some "" ∧ (csvRow exBareFinding)[10]? = some "" ∧
    (csvRow exBareFinding)[13]? = some "" :=
  csv_row_absent_field_defaults exBareFinding rfl rfl rfl rfl rfl rfl rfl rfl

/-- C10: with no credential header, identity resolution returns the
first user in the users table when one exists; on an empty users table
it fails with the 500-level "No users in database" error and not with
any 401-level unauthenticated error. -/
theorem no_credential_fallback (db : DB) :
    (db.users = [] →
      getCurrentUser db none = Except.error (ApiError.http 500 "No users in database") ∧
      ∀ detail, getCurrentUser db none ≠ Except.error (ApiError.http 401 detail)) ∧
    (∀ u rest, db.users = u :: rest → getCurrentUser db none = Except.ok u) := by
  constructor
  · intro h
    constructor
    · simp [getCurrentUser, h]
    · intro detail
      simp [getCurrentUser, h]
  · intro u rest h
    simp [getCurrentUser, h]

/-- User present in the fallback witness database. -/
def exFallbackUser : UserRow := exUser 1 "admin" (some "k")

/-- One-user database for the fallback witness. -/
def exDB10 : DB := { emptyDB with users := [exFallbackUser] }

/-- C10 applied to a one-user database and to the empty database. -/
theorem no_credential_fallback_witness :
    getCurrentUser exDB10 none = Except.ok exFallbackUser ∧
    getCurrentUser emptyDB none =
      Except.error (ApiError.http 500 "No users in database") :=
  ⟨(no_credential_fallback exDB10).2 exFallbackUser [] rfl,
   ((no_credential_fallback emptyDB).1 rfl).1⟩

/-- Number of ProgramYear rows carrying a given year value. -/
def countYear (db : DB) (y : Int) : Nat :=
  (db.program_years.filter (fun p => p.year == y)).length

/-- When the program-year lookup succeeds, `create_engagement` leaves
the program_years table untouched. -/
theorem createEngagement_program_years_of_found (db : DB)
    (input : EngagementCreateIn) (u : UserRow) (p : ProgramYearRow)
    (hf : db.program_years.find? (fun q => q.year == input.program_year) = some p) :
    (createEngagement db input u).1.program_years = db.program_years := by
  simp [createEngagement, hf]

/-- C4: creating an engagement whose program year is absent creates
exactly one ProgramYear row with that year, and a second engagement
creation citing the same year creates zero additional ProgramYear rows
(the table is unchanged, so the count stays one). -/
theorem program_year_get_or_create_idempotent (db : DB)
    (in1 in2 : EngagementCreateIn) (u1 u2 : UserRow) (y : Int)
    (h0 : countYear db y = 0) (h1 : in1.program_year = y)
    (h2 : in2.program_year = y) :
    countYear (createEngagement db in1 u1).1 y = 1 ∧
    ((createEngagement (createEngagement db in1 u1).1 in2 u2).1).program_years =
      ((createEngagement db in1 u1).1).program_years ∧
    countYear (createEngagement (createEngagement db in1 u1).1 in2 u2).1 y = 1 := by
  have hnil : List.filter (fun p => p.year == y) db.program_years = [] := by
    unfold countYear at h0
    exact List.length_eq_zero.mp h0
  have hnone : db.program_years.find? (fun p => p.year == in1.program_year) = none := by
    rw [List.find?_eq_none]
    intro p hp hc
    have hpmem : p ∈ List.filter (fun q => q.year == y) db.program_years :=
      List.mem_filter.mpr ⟨hp, by rw [← h1]; exact hc⟩
    rw [hnil] at hpmem
    cases hpmem
  have hdb1 : (createEngagement db in1 u1).1.program_years =
      db.program_years ++
        [{ id := freshId (db.program_years.map (fun q => q.id)),
           year := in1.program_year, theme := none, objectives := none }] := by
    simp [createEngagement, hnone]
  have hc1 : countYear (createEngagement db in1 u1).1 y = 1 := by
    unfold countYear at h0 ⊢
    rw [hdb1, List.filter_append, List.length_append, h0]
    simp [h1]
  have hmem :
      ({ id := freshId (db.program_years.map (fun q => q.id)),
         year := in1.program_year, theme := none, objectives := none } :
        ProgramYearRow) ∈ (createEngagement db in1 u1).1.program_years := by
    rw [hdb1]
    exact List.mem_append_right _ (List.mem_singleton.mpr rfl)
  cases hf2 : (createEngagement db in1 u1).1.program_years.find?
      (fun p => p.year == in2.program_year) with
  | none =>
    exfalso
    rw [List.find?_eq_none] at hf2
    exact hf2 _ hmem (by simp [h1, h2])
  | some p =>
    have heq :
        ((createEngagement (createEngagement db in1 u1).1 in2 u2).1).program_years =
        ((createEngagement db in1 u1).1).program_years :=
      createEngagement_program_years_of_found _ in2 u2 p hf2
    refine ⟨hc1, heq, ?_⟩
    unfold countYear
    rw [heq]
    exact hc1

/-- Engagement-creation payload citing a given year. -/
def exEngagementIn (y : Int) : EngagementCreateIn :=
  { name := "Q2 2025 PCI Network Test", engagement_type := "PCI",
    business_unit := none, start_date := none, end_date := none,
    scope_summary := none, objectives := none, methodology := none,
    program_year := y }

/-- C4 applied twice to the year 2025 starting from the empty database. -/
theorem program_year_get_or_create_idempotent_witness :
    countYear (createEngagement emptyDB (exEngagementIn 2025) exFallbackUser).1 2025 = 1 ∧
    ((createEngagement (createEngagement emptyDB (exEngagementIn 2025) exFallbackUser).1
        (exEngagementIn 2025) exFallbackUser).1).program_years =
      ((createEngagement emptyDB (exEngagementIn 2025) exFallbackUser).1).program_years ∧
    countYear (createEngagement (createEngagement emptyDB (exEngagementIn 2025) exFallbackUser).1
        (exEngagementIn 2025) exFallbackUser).1 2025 = 1 :=
  program_year_get_or_create_idempotent emptyDB (exEngagementIn 2025)
    (exEngagementIn 2025) exFallbackUser exFallbackUser 2025 rfl rfl rfl

/-- A filterMap whose function is a guarded `some` is a filter followed
by a map. -/
theorem filterMap_ite_eq_map_filter {α β : Type} (p : α → Prop) [DecidablePred p]
    (g : α → β) (l : List α) :
    (l.filterMap fun a => if p a then some (g a) else none) =
      (l.filter (fun a => p a)).map g := by
  induction l with
  | nil => rfl
  | cons a as ih =>
    by_cases h : p a <;> simp [List.filterMap_cons, List.filter_cons, h, ih]

/-- The severity histogram is empty exactly for an empty input. -/
theorem severityHistogram_eq_nil_iff (l : List String) :
    severityHistogram l = [] ↔ l = [] := by
  cases l with
  | nil => simp [severityHistogram, distinctFirst]
  | cons s rest =>
    simp [severityHistogram, distinctFirst]

/-- Finding whose severity value lies outside the five canonical labels. -/
def exUnknownFinding : LoadedFinding :=
  { toFindingRow := { exFindingRowIn 1 1 with severity := "Unknown" }, assets := [] }

/-- C3 counterexample: one finding with the non-canonical severity
"Unknown" yields a findings-summary table with a header and zero data
rows — the finding is silently dropped from the summary, with no
overflow bucket. -/
theorem md_summary_overflow_bucket_counterexample :
    exUnknownFinding.severity = "Unknown" ∧
    ("Unknown" ∉ canonicalSeverities) ∧
    mdFindingsSummarySection [exUnknownFinding] =
      ["## Findings Summary", "", "| Severity | Count |", "|----------|-------|", ""] := by
  refine ⟨rfl, by decide, ?_⟩
  simp [mdFindingsSummarySection, severityHistogram, distinctFirst, histGet,
    countOcc, exUnknownFinding, exFindingRowIn, canonicalSeverities, mdSummaryRow]

/-- C3 (amended): the findings-summary table iterates the fixed order
Critical, High, Medium, Low, Info keeping exactly the severities with
nonzero counts, and a severity value outside those five labels never
produces a row (it is silently omitted from the table). -/
theorem md_summary_fixed_order_nonzero_rows (findings : List LoadedFinding) :
    mdFindingsSummarySection findings =
      ["## Findings Summary", ""] ++
      (if findings = [] then ["No findings recorded."]
       else
         ["| Severity | Count |", "|----------|-------|"] ++
         ((canonicalSeverities.filter
            (fun s => 0 < countOcc s (findings.map (fun f => f.severity)))).map
            (fun s => mdSummaryRow s (countOcc s (findings.map (fun f => f.severity)))))) ++
      [""] ∧
    (canonicalSeverities.filter
        (fun s => 0 < countOcc s (findings.map (fun f => f.severity)))).Sublist
      canonicalSeverities ∧
    (∀ s ∈ canonicalSeverities.filter
        (fun s => 0 < countOcc s (findings.map (fun f => f.severity))),
      0 < countOcc s (findings.map (fun f => f.severity)) ∧ s ∈ canonicalSeverities) ∧
    (∀ s, s ∉ canonicalSeverities →
      s ∉ canonicalSeverities.filter
        (fun s => 0 < countOcc s (findings.map (fun f => f.severity)))) := by
  refine ⟨?_, List.filter_sublist _, ?_, ?_⟩
  · by_cases hf : findings = []
    · subst hf
      simp [mdFindingsSummarySection, severityHistogram, distinctFirst]
    · have hne : severityHistogram (findings.map (fun f => f.severity)) ≠ [] := by
        rw [ne_eq, severityHistogram_eq_nil_iff, List.map_eq_nil_iff]
        exact hf
      have hemp : (severityHistogram (findings.map (fun f => f.severity))).isEmpty
          = false := by
        rw [List.isEmpty_eq_false_iff_exists_mem]
        rcases List.exists_mem_of_ne_nil _ hne with ⟨x, hx⟩
        exact ⟨x, hx⟩
      unfold mdFindingsSummarySection
      simp only [hemp, Bool.false_eq_true, if_false, if_neg hf]
      congr 2
      have hrw :
          (fun s => if 0 < histGet
              (severityHistogram (findings.map (fun f => f.severity))) s then
            some (mdSummaryRow s (histGet
              (severityHistogram (findings.map (fun f => f.severity))) s))
          else none) =
          (fun s => if 0 < countOcc s (findings.map (fun f => f.severity)) then
            some (mdSummaryRow s (countOcc s (findings.map (fun f => f.severity))))
          else none) := by
        funext s
        rw [histGet_severityHistogram]
      rw [hrw, filterMap_ite_eq_map_filter]
  · intro s hs
    have h2 := List.mem_filter.mp hs
    exact ⟨by simpa using h2.2, h2.1⟩
  · intro s hs hmem
    exact hs (List.mem_filter.mp hmem).1

/-- C5 counterexample: on the empty database, where engagement 1 does
not resolve, listing its timeline events succeeds with an empty list
instead of failing with the 404 not-found error. -/
theorem timeline_list_missing_engagement_counterexample :
    emptyDB.engagements.find? (fun e => e.id == 1) = none ∧
    listTimelineEvents emptyDB 1 = Except.ok [] ∧
    listTimelineEvents emptyDB 1 ≠
      Except.error (ApiError.http 404 "Engagement not found") := by
  refine ⟨rfl, rfl, ?_⟩
  intro h
  cases h

/-- C5 (amended): when an engagement identifier does not resolve, the
report, both exports, finding creation and listing, timeline-event
creation and engagement-comment creation all fail with the 404
"Engagement not found" error, and an unresolvable template identifier
fails with 404 "Finding template not found"; the timeline listing
endpoint alone performs no existence check and returns the (possibly
empty) filtered event list. -/
theorem missing_engagement_endpoints_not_found (db : DB) (eid tid : Nat)
    (input_f : FindingCreateIn) (input_t : TimelineEventCreateIn)
    (input_c : CommentCreateIn) (u : UserRow)
    (he : db.engagements.find? (fun e => e.id == eid) = none)
    (ht : db.finding_templates.find? (fun t => t.id == tid) = none) :
    getEngagementReport db eid =
      Except.error (ApiError.http 404 "Engagement not found") ∧
    exportEngagementCsv db eid =
      Except.error (ApiError.http 404 "Engagement not found") ∧
    exportEngagementMarkdown db eid =
      Except.error (ApiError.http 404 "Engagement not found") ∧
    createFinding db eid input_f u =
      Except.error (ApiError.http 404 "Engagement not found") ∧
    listFindingsForEngagement db eid =
      Except.error (ApiError.http 404 "Engagement not found") ∧
    addTimelineEvent db eid input_t u =
      Except.error (ApiError.http 404 "Engagement not found") ∧
    addEngagementComment db eid input_c u =
      Except.error (ApiError.http 404 "Engagement not found") ∧
    getFindingTemplate db tid =
      Except.error (ApiError.http 404 "Finding template not found") ∧
    listTimelineEvents db eid =
      Except.ok (db.timeline_events.filter (fun t => t.engagement_id == eid)) := by
  refine ⟨?_, ?_, ?_, ?_, ?_, ?_, ?_, ?_, rfl⟩
  · simp [getEngagementReport, loadEngagement, he]
  · simp [exportEngagementCsv, loadEngagement, he]
  · simp [exportEngagementMarkdown, loadEngagement, he]
  · simp [createFinding, he]
  · simp [listFindingsForEngagement, he]
  · simp [addTimelineEvent, he]
  · simp [addEngagementComment, he]
  · simp [getFindingTemplate, ht]

/-- Payload fixtures for the C5 witness. -/
def exTimelineIn : TimelineEventCreateIn :=
  { event_type := "note", summary := "kickoff", details := none }

/-- Comment payload fixture. -/
def exCommentIn : CommentCreateIn := { text := "hello" }

/-- Finding payload fixture. -/
def exFindingIn : FindingCreateIn :=
  { title := "F", severity := "High", description := none, impact := none,
    poc := none, recommendation := none, attack_techniques := none,
    template_id := none, remediation_status := none, remediation_owner := none,
    due_date := none }

/-- C5 (amended) applied to the empty database and identifier 1. -/
theorem missing_engagement_endpoints_not_found_witness :
    getEngagementReport emptyDB 1 =
      Except.error (ApiError.http 404 "Engagement not found") ∧
    exportEngagementCsv emptyDB 1 =
      Except.error (ApiError.http 404 "Engagement not found") ∧
    exportEngagementMarkdown emptyDB 1 =
      Except.error (ApiError.http 404 "Engagement not found") ∧
    createFinding emptyDB 1 exFindingIn exFallbackUser =
      Except.error (ApiError.http 404 "Engagement not found") ∧
    listFindingsForEngagement emptyDB 1 =
      Except.error (ApiError.http 404 "Engagement not found") ∧
    addTimelineEvent emptyDB 1 exTimelineIn exFallbackUser =
      Except.error (ApiError.http 404 "Engagement not found") ∧
    addEngagementComment emptyDB 1 exCommentIn exFallbackUser =
      Except.error (ApiError.http 404 "Engagement not found") ∧
    getFindingTemplate emptyDB 1 =
      Except.error (ApiError.http 404 "Finding template not found") ∧
    listTimelineEvents emptyDB 1 =
      Except.ok (emptyDB.timeline_events.filter (fun t => t.engagement_id == 1)) :=
  missing_engagement_endpoints_not_found emptyDB 1 1 exFindingIn exTimelineIn
    exCommentIn exFallbackUser rfl rfl

/-- C6: after a successful admin credential regeneration, a lookup by
the user's previous credential value fails with the 401 error, and a
lookup by the newly issued value authenticates as that user.  The
hypotheses record the database's uniqueness constraint on the
credential column (`api_key` is unique, so no other user holds the old
value) and the freshness of the generated token (it collides with no
stored credential and differs from the old one). -/
theorem regenerate_api_key_invalidates_old_key
    (db : DB) (admin target : UserRow) (oldKey newKey : String)
    (dbA : DB) (out : RegenerateOut)
    (hmem : target ∈ db.users)
    (huniq : ∀ v ∈ db.users, v.api_key = some oldKey → v.id = target.id)
    (hfresh : ∀ v ∈ db.users, v.api_key ≠ some newKey)
    (hne : newKey ≠ oldKey)
    (hsucc : regenerateApiKey db admin target.id newKey = Except.ok (dbA, out)) :
    getCurrentUser dbA (some oldKey) =
      Except.error (ApiError.http 401 "Invalid API key") ∧
    ∃ v, getCurrentUser dbA (some newKey) = Except.ok v ∧
      v.id = target.id ∧ v.api_key = some newKey := by
  unfold regenerateApiKey at hsucc
  split at hsucc
  · exact absurd hsucc (by simp)
  · split at hsucc
    · exact absurd hsucc (by simp)
    · simp only [Except.ok.injEq, Prod.mk.injEq] at hsucc
      obtain ⟨hdbA, hout⟩ := hsucc
      subst hdbA
      constructor
      · have hnone : (db.users.map (fun v =>
            if v.id == target.id then { v with api_key := some newKey } else v)).find?
              (fun u => u.api_key == some oldKey) = none := by
          rw [List.find?_eq_none]
          intro w hw
          rcases List.mem_map.mp hw with ⟨v, hv, hvw⟩
          by_cases hid : v.id == target.id
          · rw [if_pos hid] at hvw
            rw [← hvw]
            simp [hne]
          · rw [if_neg hid] at hvw
            rw [← hvw]
            intro hc
            have hvold : v.api_key = some oldKey := by simpa using hc
            have := huniq v hv hvold
            simp [this] at hid
        simp only [getCurrentUser]
        rw [hnone]
      · have hupd_mem : ({ target with api_key := some newKey } : UserRow) ∈
            db.users.map (fun v =>
              if v.id == target.id then { v with api_key := some newKey } else v) := by
          refine List.mem_map.mpr ⟨target, hmem, ?_⟩
          simp
        have hsome : ((db.users.map (fun v =>
            if v.id == target.id then { v with api_key := some newKey } else v)).find?
              (fun u => u.api_key == some newKey)).isSome := by
          rw [List.find?_isSome]
          exact ⟨_, hupd_mem, by simp⟩
        rcases Option.isSome_iff_exists.mp hsome with ⟨v, hfindv⟩
        have hvkey : v.api_key = some newKey := by
          simpa using List.find?_some hfindv
        have hvmem := List.mem_of_find?_eq_some hfindv
        rcases List.mem_map.mp hvmem with ⟨w, hwmem, hwv⟩
        refine ⟨v, ?_, ?_, hvkey⟩
        · simp only [getCurrentUser]
          rw [hfindv]
        · by_cases hid : w.id == target.id
          · rw [if_pos hid] at hwv
            rw [← hwv]
            simpa using hid
          · rw [if_neg hid] at hwv
            exact absurd (hwv ▸ hvkey) (hfresh w hwmem)

/-- Admin performing the regeneration in the C6 witness. -/
def exAdmin6 : UserRow := exUser 1 "admin" (some "adminkey")

/-- Target user whose credential is rotated in the C6 witness. -/
def exTarget6 : UserRow := exUser 2 "red" (some "oldkey")

/-- Two-user database before the rotation. -/
def exDB6 : DB := { emptyDB with users := [exAdmin6, exTarget6] }

/-- The database after rotating user 2's credential to "newkey". -/
def exDB6After : DB :=
  { emptyDB with users := [exAdmin6, { exTarget6 with api_key := some "newkey" }] }

/-- C6 applied to a concrete two-user database. -/
theorem regenerate_api_key_invalidates_old_key_witness :
    getCurrentUser exDB6After (some "oldkey") =
      Except.error (ApiError.http 401 "Invalid API key") ∧
    ∃ v, getCurrentUser exDB6After (some "newkey") = Except.ok v ∧
      v.id = 2 ∧ v.api_key = some "newkey" :=
  regenerate_api_key_invalidates_old_key exDB6 exAdmin6 exTarget6 "oldkey" "newkey"
    exDB6After { user_id := 2, username := "user2", api_key := "newkey" }
    (by decide) (by decide) (by decide) (by decide) rfl

/-- Template with canonical text, referenced by the C7 fixtures. -/
def exTemplate7 : FindingTemplateRow :=
  { id := 5, title := "SQL Injection", category := some "Web",
    severity_default := some "High",
    description := some "Canonical description",
    impact := some "Canonical impact",
    recommendation := some "Canonical recommendation",
    cwe_id := none, attack_techniques := none, references := none,
    created_by_id := none }

/-- Database with one engagement and the canonical template. -/
def exDB7 : DB :=
  { emptyDB with
    users := [exFallbackUser],
    engagements := [exEngagementRow 1],
    finding_templates := [exTemplate7] }

/-- Finding-creation payload that references template 5 while supplying
no text of its own. -/
def exFindingInTpl : FindingCreateIn := { exFindingIn with template_id := some 5 }

/-- C7 counterexample: creating a finding that references template 5,
whose canonical description, impact and recommendation are all set,
with a payload carrying no text, yields a finding whose description,
impact and recommendation are all absent — nothing was copied from the
template. -/
theorem create_finding_template_text_not_copied_counterexample :
    exTemplate7.description = some "Canonical description" ∧
    exTemplate7.impact = some "Canonical impact" ∧
    exTemplate7.recommendation = some "Canonical recommendation" ∧
    (createFinding exDB7 1 exFindingInTpl exFallbackUser).map
        (fun r => (r.2.template_id, r.2.description, r.2.impact, r.2.recommendation)) =
      Except.ok (some 5, none, none, none) :=
  ⟨rfl, rfl, rfl, rfl⟩

/-- C7 (amended): a finding created with a template reference stores
only the `template_id`; its title, severity and all descriptive text
fields come verbatim from the request payload (no template text is
copied), and deleting a finding template afterwards leaves the findings
table unchanged, so whatever text the finding holds is independent of
the template's continued existence. -/
theorem create_finding_stores_reference_only
    (db : DB) (eid : Nat) (input : FindingCreateIn) (u : UserRow)
    (dbA : DB) (f : FindingRow)
    (hsucc : createFinding db eid input u = Except.ok (dbA, f)) :
    f.template_id = input.template_id ∧
    f.title = input.title ∧
    f.severity = input.severity ∧
    f.description = input.description ∧
    f.impact = input.impact ∧
    f.poc = input.poc ∧
    f.recommendation = input.recommendation ∧
    f.attack_techniques = input.attack_techniques ∧
    (∀ tid dbB, deleteFindingTemplate dbA tid = Except.ok dbB →
      dbB.findings = dbA.findings) := by
  unfold createFinding at hsucc
  split at hsucc
  · exact absurd hsucc (by simp)
  · simp only [Except.ok.injEq, Prod.mk.injEq] at hsucc
    obtain ⟨hdbA, hf⟩ := hsucc
    subst hf
    refine ⟨rfl, rfl, rfl, rfl, rfl, rfl, rfl, rfl, ?_⟩
    intro tid dbB hdel
    unfold deleteFindingTemplate at hdel
    split at hdel
    · exact absurd hdel (by simp)
    · simp only [Except.ok.injEq] at hdel
      subst hdel
      rfl

/-- The finding actually produced by the C7 witness creation. -/
def exCreatedFinding7 : FindingRow :=
  { id := 1, engagement_id := 1, template_id := some 5, title := "F",
    severity := "High", status := "New", description := none, impact := none,
    poc := none, recommendation := none, attack_techniques := none,
    remediation_status := "Not-Started", remediation_owner := none,
    due_date := none, detection_status := none, detection_notes := none,
    risk_accepted := false, risk_accepted_notes := none, created_by_id := some 1 }

/-- Database state after the C7 witness creation. -/
def exDB7After : DB := { exDB7 with findings := [exCreatedFinding7] }

/-- C7 (amended) applied to the concrete template-referencing creation. -/
theorem create_finding_stores_reference_only_witness :
    exCreatedFinding7.template_id = exFindingInTpl.template_id ∧
    exCreatedFinding7.title = exFindingInTpl.title ∧
    exCreatedFinding7.severity = exFindingInTpl.severity ∧
    exCreatedFinding7.description = exFindingInTpl.description ∧
    exCreatedFinding7.impact = exFindingInTpl.impact ∧
    exCreatedFinding7.poc = exFindingInTpl.poc ∧
    exCreatedFinding7.recommendation = exFindingInTpl.recommendation ∧
    exCreatedFinding7.attack_techniques = exFindingInTpl.attack_techniques ∧
    (∀ tid dbB, deleteFindingTemplate exDB7After tid = Except.ok dbB →
      dbB.findings = exDB7After.findings) :=
  create_finding_stores_reference_only exDB7 1 exFindingInTpl exFallbackUser
    exDB7After exCreatedFinding7 rfl

end OffsecMvp
